import Mathlib

/-
Verification of the site/schedule reconciliation core of verkada-alerts
(src/main.py) against its natural-language specification.

The embedding models the pure decision logic of the program:
  * `get_cinglepointid`     — src/main.py lines 74-81
  * `market_to_timezone`    — src/main.py lines 46-71
  * `get_open_close_columns`— src/main.py lines 84-99
  * the `datetime.strptime(s, "%I:%M %p")` time parse used at lines 145-146
  * `site_validation`       — src/main.py lines 120-169

External effects are reflected as data: an alert e-mail becomes an entry in
the pass's alert list, a skip log becomes an entry in the skip list, and an
uncaught Python exception becomes a `crash` pass result carrying the
exception kind and the state accumulated so far.
-/

namespace VerkadaAlerts

/-- Python exception kinds the core can raise. `valueError` (a failed
`strptime`) is always caught by the `try` block at lines 144-150 and never
escapes; `indexError` (from `siterow.iat[0,0]` on an empty row selection,
line 132) and `typeError` (from an order comparison between `datetime.time`
and a non-time value at line 159, or from unpacking the `None` returned by
`get_open_close_columns` on a non-weekday at line 140) are uncaught and
abort the pass. -/
inductive PyExn where
  | indexError
  | typeError
  | valueError
  deriving DecidableEq, Repr

/-- One cell of the schedule spreadsheet as pandas hands it to the code:
a Python `str` (`text`), a native `datetime.time` value measured here in
seconds since midnight (`tval`), or a blank/NaN cell (`blank`). -/
inductive Cell where
  | text (s : String)
  | tval (t : Nat)
  | blank
  deriving DecidableEq, Repr

/-- One record of the Verkada live-state feed: `site["site_name"]` and
`site["site_state"]` are the only fields `site_validation` reads. -/
structure SiteLiveState where
  site_name : String
  site_state : String
  deriving DecidableEq, Repr

/-- One row of the schedule table: the named column `Cinglepoint ID` used by
the row lookup at line 131, and the positional cells read through
`siterow.iat[0, j]` (column 0 is the market name; columns 4-17 are the
weekday open/close cells). The table is assumed rectangular, so the
positional read is total. -/
structure ScheduleRow where
  cinglepoint_id : Int
  cells : Nat → Cell

/-- The reference instant `validation_time`, modelled by what the code
extracts from it: `validation_time.astimezone(ZoneInfo(tz)).time()`, i.e.
the local time-of-day (seconds since midnight) in each named time zone. -/
abbrev Instant := String → Nat

/-- Python `str.split(sep)` for a one-character separator: split at every
occurrence, keeping empty segments. -/
def pySplitAux (sep : Char) : List Char → List Char → List String
  | [], cur => [String.mk cur.reverse]
  | c :: rest, cur =>
      if c = sep then String.mk cur.reverse :: pySplitAux sep rest []
      else pySplitAux sep rest (c :: cur)

/-- Python `str.split('~')` on a string. -/
def pySplit (sep : Char) (s : String) : List String :=
  pySplitAux sep s.data []

/-- Python `str.strip()`: drop leading and trailing whitespace. -/
def pyStrip (s : String) : String :=
  String.mk
    (((s.data.dropWhile Char.isWhitespace).reverse.dropWhile
      Char.isWhitespace).reverse)

/-- Digits of a Python integer literal after the sign: one or more ASCII
digits with single underscores allowed between digits. Returns the value,
or `none` when the Python `int()` constructor would raise `ValueError`. -/
def pyDigits : List Char → Nat → Option Nat
  | [], acc => some acc
  | '_' :: c :: rest, acc =>
      if c.isDigit then pyDigits rest (acc * 10 + (c.toNat - 48)) else none
  | c :: rest, acc =>
      if c.isDigit then pyDigits rest (acc * 10 + (c.toNat - 48)) else none

/-- Python `int(s)` on an already-stripped string: optional sign followed by
a nonempty digit sequence; `none` models `ValueError`. -/
def pyInt : String → Option Int
  | s =>
    match s.data with
    | '+' :: c :: rest =>
        if c.isDigit then (pyDigits rest (c.toNat - 48)).map Int.ofNat else none
    | '-' :: c :: rest =>
        if c.isDigit then (pyDigits rest (c.toNat - 48)).map (fun n => -(n : Int))
        else none
    | c :: rest =>
        if c.isDigit then (pyDigits rest (c.toNat - 48)).map Int.ofNat else none
    | [] => none

/-- src/main.py lines 74-81: `int(sitename.split('~')[1].strip())`, with
`IndexError` (no second segment) and `ValueError` (not an integer) both
normalised to the sentinel `-1`. Total: no exception escapes. -/
def get_cinglepointid (sitename : String) : Int :=
  match (pySplit '~' sitename).get? 1 with
  | none => -1
  | some seg =>
    match pyInt (pyStrip seg) with
    | none => -1
    | some n => n

/-- src/main.py lines 46-71: exact-string match from market name to time
zone id, the wildcard case returning the empty string. -/
def market_to_timezone (marketname : String) : String :=
  match marketname with
  | "AZPHX Market" => "US/Arizona"
  | "CABAY Market" => "US/Pacific"
  | "CAGLA Market" => "US/Pacific"
  | "CASAN Market" => "US/Pacific"
  | "CODEN Market" => "US/Mountain"
  | "ILCHI Market" => "US/Central"
  | "MIDET Market" => "US/Eastern"
  | "ININD Market" => "US/Eastern"
  | "NVLAS Market" => "US/Pacific"
  | "ORPTL Market" => "US/Pacific"
  | "WASEA Market" => "US/Pacific"
  | _ => ""

/-- The value `siterow.iat[0,0]` fed to `market_to_timezone` need not be a
string; Python's `match` against string literals sends any non-string to
the wildcard case, returning the empty string. -/
def cell_market_to_timezone : Cell → String
  | .text s => market_to_timezone s
  | _ => ""

/-- src/main.py lines 84-99: weekday name to the positional (open, close)
column pair; `none` models the implicit `None` returned on a non-weekday
(which the caller then fails to unpack). -/
def get_open_close_columns (validation_day : String) : Option (Nat × Nat) :=
  match validation_day with
  | "Monday" => some (4, 5)
  | "Tuesday" => some (6, 7)
  | "Wednesday" => some (8, 9)
  | "Thursday" => some (10, 11)
  | "Friday" => some (12, 13)
  | "Saturday" => some (14, 15)
  | "Sunday" => some (16, 17)
  | _ => none

/-- Hour field of `strptime` format `%I`: regex `1[0-2]|0[1-9]|[1-9]`,
returning the hour and the unconsumed input. -/
def parseHourField : List Char → Option (Nat × List Char)
  | '1' :: c :: rest =>
      if '0' ≤ c ∧ c ≤ '2' then some (10 + (c.toNat - 48), rest)
      else some (1, c :: rest)
  | '0' :: c :: rest =>
      if '1' ≤ c ∧ c ≤ '9' then some (c.toNat - 48, rest) else none
  | c :: rest =>
      if '1' ≤ c ∧ c ≤ '9' then some (c.toNat - 48, rest) else none
  | [] => none

/-- Minute field of `strptime` format `%M`: regex `[0-5]\d|\d`. -/
def parseMinField : List Char → Option (Nat × List Char)
  | [] => none
  | c :: rest =>
      if c.isDigit then
        match rest with
        | d :: rest2 =>
            if '0' ≤ c ∧ c ≤ '5' ∧ d.isDigit then
              some ((c.toNat - 48) * 10 + (d.toNat - 48), rest2)
            else some (c.toNat - 48, rest)
        | [] => some (c.toNat - 48, [])
      else none

/-- Literal whitespace in a `strptime` format: one or more whitespace
characters. -/
def parseWs1 : List Char → Option (List Char)
  | c :: rest =>
      if c.isWhitespace then some (rest.dropWhile Char.isWhitespace) else none
  | [] => none

/-- `%p` field at end of input: `AM` or `PM`, case-insensitive; `true`
means PM. -/
def parseAmPmEnd : List Char → Option Bool
  | [a, m] =>
      if (a = 'A' ∨ a = 'a') ∧ (m = 'M' ∨ m = 'm') then some false
      else if (a = 'P' ∨ a = 'p') ∧ (m = 'M' ∨ m = 'm') then some true
      else none
  | _ => none

/-- `datetime.strptime(s, "%I:%M %p").time()` as seconds since midnight;
`none` models `ValueError` (the string does not match the format). -/
def parseTime12 (s : String) : Option Nat :=
  match parseHourField s.data with
  | none => none
  | some (h, r1) =>
    match r1 with
    | ':' :: r2 =>
      match parseMinField r2 with
      | none => none
      | some (m, r3) =>
        match parseWs1 r3 with
        | none => none
        | some r4 =>
          match parseAmPmEnd r4 with
          | none => none
          | some pm =>
            let h24 := if pm then (if h = 12 then 12 else h + 12)
                       else (if h = 12 then 0 else h)
            some ((h24 * 60 + m) * 60)
    | _ => none

/-- `datetime.strptime(cell, "%I:%M %p")` on a raw cell: a string either
parses or raises `ValueError`; any non-string raises `TypeError`. -/
def strptimeCell : Cell → Except PyExn Nat
  | .text s =>
    match parseTime12 s with
    | some t => .ok t
    | none => .error .valueError
  | _ => .error .typeError

/-- The value bound to `open_time` / `close_time` after the try/except at
lines 142-155: either a `datetime.time` produced by a successful
`strptime` (`tm`), or the raw cell value copied unchanged by the
`TypeError` handler (`raw`). -/
inductive TOrRaw where
  | tm (t : Nat)
  | raw (c : Cell)
  deriving DecidableEq, Repr

/-- Outcome of the window-parsing try/except (lines 142-155): `skipped`
when either `strptime` raises `ValueError` (the site is appended to the
skip list and the loop continues), or the pair of effective open/close
values otherwise. -/
inductive ParseOutcome where
  | skipped
  | vals (ot ct : TOrRaw)
  deriving DecidableEq, Repr

/-- Lines 142-155 of src/main.py. `open_time` and `close_time` start as
`''`; the first `strptime` to raise `TypeError` sends control to the
handler, which keeps any value that is already a `datetime.time` and
replaces the rest by the raw cell; a `ValueError` from either call means
skip. -/
def parse_window (row : ScheduleRow) (oc cc : Nat) : ParseOutcome :=
  match strptimeCell (row.cells oc) with
  | .error .valueError => .skipped
  | .error _ => .vals (.raw (row.cells oc)) (.raw (row.cells cc))
  | .ok t1 =>
    match strptimeCell (row.cells cc) with
    | .error .valueError => .skipped
    | .error _ => .vals (.tm t1) (.raw (row.cells cc))
    | .ok t2 => .vals (.tm t1) (.tm t2)

/-- The `datetime.time` content of an effective window value, when the
value is order-comparable with another `datetime.time`: a parsed time or a
raw native-time cell. `none` means a Python order comparison against a
`datetime.time` raises `TypeError`. -/
def tmOf : TOrRaw → Option Nat
  | .tm t => some t
  | .raw (.tval t) => some t
  | .raw _ => none

/-- Python `site_local_time > v`: numeric when `v` is a time, `TypeError`
otherwise. -/
def cmpGT (a : Nat) (v : TOrRaw) : Except PyExn Bool :=
  match tmOf v with
  | some t => .ok (decide (t < a))
  | none => .error .typeError

/-- Python `site_local_time < v`: numeric when `v` is a time, `TypeError`
otherwise. -/
def cmpLT (a : Nat) (v : TOrRaw) : Except PyExn Bool :=
  match tmOf v with
  | some t => .ok (decide (a < t))
  | none => .error .typeError

/-- Line 159 of src/main.py with Python's left-to-right short-circuit
evaluation of `and`:
`site_local_time > open_time and site_local_time < close_time and
site_state == 'armed'`. -/
def alert_condition (site_local_time : Nat) (ot ct : TOrRaw)
    (site_state : String) : Except PyExn Bool :=
  match cmpGT site_local_time ot with
  | .error e => .error e
  | .ok false => .ok false
  | .ok true =>
    match cmpLT site_local_time ct with
    | .error e => .error e
    | .ok false => .ok false
    | .ok true => .ok (site_state == "armed")

/-- Outcome of one iteration of the loop in `site_validation` for one
site: an alert e-mail referencing the site, no action, an appended skip
entry, or an uncaught exception. -/
inductive SiteOutcome where
  | alert (name : String)
  | noAlert
  | skip (name : String)
  | crash (e : PyExn)
  deriving DecidableEq, Repr

/-- Lines 122-167 of src/main.py: the body of the per-site loop.
Sentinel id, empty time zone, and a `ValueError` window parse append the
site name to the skip list; a missing schedule row raises `IndexError` at
`siterow.iat[0,0]`; a non-weekday raises `TypeError` unpacking `None`; a
window comparison against a non-time value raises `TypeError`. -/
def evalSite (schedulefile : List ScheduleRow) (validation_time : Instant)
    (validation_day : String) (site : SiteLiveState) : SiteOutcome :=
  let cpid := get_cinglepointid site.site_name
  if cpid = -1 then .skip site.site_name
  else
    match schedulefile.find? (fun r => r.cinglepoint_id == cpid) with
    | none => .crash .indexError
    | some siterow =>
      let site_timezone := cell_market_to_timezone (siterow.cells 0)
      if site_timezone = "" then .skip site.site_name
      else
        match get_open_close_columns validation_day with
        | none => .crash .typeError
        | some (oc, cc) =>
          match parse_window siterow oc cc with
          | .skipped => .skip site.site_name
          | .vals ot ct =>
            let site_local_time := validation_time site_timezone
            match alert_condition site_local_time ot ct site.site_state with
            | .error e => .crash e
            | .ok true => .alert site.site_name
            | .ok false => .noAlert

/-- Result of one full pass of `site_validation`: normal completion with
the alerts sent and the skip list logged at line 169, or an uncaught
exception propagating to the caller with the alerts and skips accumulated
before it. -/
inductive PassResult where
  | ok (alerts skipped : List String)
  | crash (e : PyExn) (alerts skipped : List String)
  deriving DecidableEq, Repr

/-- The `for site in verkadafile` loop of `site_validation`, threading the
alert and skip accumulators; an uncaught exception stops the loop. -/
def runPass (schedulefile : List ScheduleRow) (validation_time : Instant)
    (validation_day : String) :
    List SiteLiveState → List String → List String → PassResult
  | [], alerts, skipped => .ok alerts skipped
  | site :: rest, alerts, skipped =>
    match evalSite schedulefile validation_time validation_day site with
    | .alert n => runPass schedulefile validation_time validation_day rest
        (alerts ++ [n]) skipped
    | .noAlert => runPass schedulefile validation_time validation_day rest
        alerts skipped
    | .skip n => runPass schedulefile validation_time validation_day rest
        alerts (skipped ++ [n])
    | .crash e => .crash e alerts skipped

/-- The three-way branch wrapped around the line-159 condition: a raised
comparison error aborts, a true condition alerts, a false one does
nothing. Named form of the final match inside `evalSite`, used to state
lemmas about it. -/
def outcomeOfCondition (name : String) : Except PyExn Bool → SiteOutcome
  | .error e => .crash e
  | .ok true => .alert name
  | .ok false => .noAlert

/-- src/main.py lines 120-169: one reconciliation pass over the live site
list. -/
def site_validation (verkadafile : List SiteLiveState)
    (schedulefile : List ScheduleRow) (validation_time : Instant)
    (validation_day : String) : PassResult :=
  runPass schedulefile validation_time validation_day verkadafile [] []

/-- The fixed market enumeration of `market_to_timezone` (src/main.py
lines 48-69), in source order. -/
def marketEnumeration : List String :=
  ["AZPHX Market", "CABAY Market", "CAGLA Market", "CASAN Market",
   "CODEN Market", "ILCHI Market", "MIDET Market", "ININD Market",
   "NVLAS Market", "ORPTL Market", "WASEA Market"]

/-- Concrete schedule row for the end-to-end scenarios: CinglepointId 101,
market CABAY (Pacific), Wednesday open cell the text 9:00 AM and close
cell the text 9:00 PM. -/
def row101 : ScheduleRow where
  cinglepoint_id := 101
  cells := fun j =>
    if j = 0 then .text "CABAY Market"
    else if j = 8 then .text "9:00 AM"
    else if j = 9 then .text "9:00 PM"
    else .blank

/-- Concrete row whose Wednesday open and close cells are blank (NaN),
modelling a day the store is closed. -/
def rowBlankDay : ScheduleRow where
  cinglepoint_id := 101
  cells := fun j => if j = 0 then .text "CABAY Market" else .blank

/-- Concrete row whose Wednesday open cell is the malformed text
25:00 AM. -/
def rowBad : ScheduleRow where
  cinglepoint_id := 101
  cells := fun j =>
    if j = 0 then .text "CABAY Market"
    else if j = 8 then .text "25:00 AM"
    else if j = 9 then .text "9:00 PM"
    else .blank

/-- Concrete row whose market name is outside the fixed enumeration. -/
def rowTX : ScheduleRow where
  cinglepoint_id := 101
  cells := fun j => if j = 0 then .text "TXAUS Market" else .blank

/-- Concrete row whose Wednesday open cell is the parseable text 9:00 AM
while the close cell is blank (NaN). -/
def rowMixed : ScheduleRow where
  cinglepoint_id := 101
  cells := fun j =>
    if j = 0 then .text "CABAY Market"
    else if j = 8 then .text "9:00 AM"
    else .blank

/-- Reference instant whose Pacific local time is 8:00 AM (28800 s). -/
def pacific8am : Instant := fun tz => if tz = "US/Pacific" then 28800 else 0

/-- Reference instant whose Pacific local time is 2:00 PM (50400 s). -/
def pacific2pm : Instant := fun tz => if tz = "US/Pacific" then 50400 else 0

/-- Reference instant whose Pacific local time is 10:00 PM (79200 s). -/
def pacific10pm : Instant := fun tz => if tz = "US/Pacific" then 79200 else 0

/-- Helper: with two comparable (time, time) window values the condition of
line 159 reduces to the conjunction of the two strict comparisons and the
armed check. -/
theorem alert_condition_tm (lt t1 t2 : Nat) (st : String) :
    alert_condition lt (.tm t1) (.tm t2) st =
      .ok (decide (t1 < lt) && (decide (lt < t2) && (st == "armed"))) := by
  unfold alert_condition cmpGT cmpLT tmOf
  by_cases h1 : t1 < lt <;> by_cases h2 : lt < t2 <;> simp [h1, h2]

/-- Helper: once identifier, row, time zone and columns resolve and the
window parse yields effective values, `evalSite` is decided by the line-159
condition alone. -/
theorem evalSite_eq_of_reach (schedulefile : List ScheduleRow)
    (vt : Instant) (vd : String) (site : SiteLiveState) (row : ScheduleRow)
    (oc cc : Nat) (ot ct : TOrRaw)
    (hid : get_cinglepointid site.site_name ≠ -1)
    (hrow : schedulefile.find?
      (fun r => r.cinglepoint_id == get_cinglepointid site.site_name) = some row)
    (htz : cell_market_to_timezone (row.cells 0) ≠ "")
    (hcols : get_open_close_columns vd = some (oc, cc))
    (hparse : parse_window row oc cc = .vals ot ct) :
    evalSite schedulefile vt vd site =
      outcomeOfCondition site.site_name
        (alert_condition (vt (cell_market_to_timezone (row.cells 0)))
          ot ct site.site_state) := by
  simp only [evalSite, if_neg hid, hrow, if_neg htz, hcols, hparse]
  cases alert_condition (vt (cell_market_to_timezone (row.cells 0)))
      ot ct site.site_state with
  | error e => rfl
  | ok b => cases b <;> rfl

/-- C6: `market_to_timezone` is a pure total function on strings: every
market name in the fixed enumeration maps to a non-empty time zone id, and
every string outside the enumeration maps to the empty string (no error
path exists). -/
theorem c6_timezone_total_lookup :
    (∀ m ∈ marketEnumeration, market_to_timezone m ≠ "") ∧
    (∀ s : String, s ∉ marketEnumeration → market_to_timezone s = "") := by
  constructor
  · intro m hm
    simp only [marketEnumeration, List.mem_cons, List.not_mem_nil,
      or_false] at hm
    rcases hm with rfl | rfl | rfl | rfl | rfl | rfl | rfl | rfl | rfl |
      rfl | rfl <;> decide
  · intro s hs
    unfold market_to_timezone
    split <;> simp_all [marketEnumeration]

/-- C6 witness: a member of the enumeration resolves to a non-empty zone
and a non-member resolves to the empty string. -/
theorem c6_witness :
    market_to_timezone "AZPHX Market" ≠ "" ∧
    market_to_timezone "TXAUS Market" = "" :=
  ⟨c6_timezone_total_lookup.1 "AZPHX Market" (by simp [marketEnumeration]),
   c6_timezone_total_lookup.2 "TXAUS Market" (by simp [marketEnumeration])⟩

/-- C7: `get_open_close_columns` sends the seven weekday names Monday
through Sunday to the pairs (4,5), (6,7), (8,9), (10,11), (12,13),
(14,15), (16,17) respectively; the pairs are pairwise distinct, each has
open column strictly below close column, and successive weekdays ascend by
2 in both components starting from Monday = (4,5). -/
theorem c7_weekday_columns :
    (["Monday", "Tuesday", "Wednesday", "Thursday", "Friday", "Saturday",
      "Sunday"].map get_open_close_columns =
      [some (4, 5), some (6, 7), some (8, 9), some (10, 11), some (12, 13),
       some (14, 15), some (16, 17)]) ∧
    ([(4, 5), (6, 7), (8, 9), (10, 11), (12, 13), (14, 15), (16, 17)] :
      List (Nat × Nat)).Nodup ∧
    (∀ p ∈ ([(4, 5), (6, 7), (8, 9), (10, 11), (12, 13), (14, 15),
      (16, 17)] : List (Nat × Nat)), p.1 < p.2) ∧
    (let ps : List (Nat × Nat) :=
      [(4, 5), (6, 7), (8, 9), (10, 11), (12, 13), (14, 15), (16, 17)]
     (ps.zip ps.tail).all
       (fun pq => pq.2.1 == pq.1.1 + 2 && pq.2.2 == pq.1.2 + 2) = true) := by
  refine ⟨by decide, by decide, by decide, by decide⟩

/-- C7 witness: the Monday pair from the enumeration has its open column
strictly below its close column. -/
theorem c7_witness : ((4, 5) : Nat × Nat).1 < ((4, 5) : Nat × Nat).2 :=
  c7_weekday_columns.2.2.1 (4, 5) (by decide)

/-- C9: end-to-end scenarios. Site Store~101 armed, schedule row 101 in
the CABAY (Pacific) market with Wednesday window 9:00 AM to 9:00 PM:
at 2:00 PM Pacific the pass emits exactly one alert referencing
Store~101; the same input disarmed, or at 10:00 PM Pacific, emits no
alert. -/
theorem c9_end_to_end :
    site_validation [⟨"Store~101", "armed"⟩] [row101] pacific2pm
      "Wednesday" = .ok ["Store~101"] [] ∧
    site_validation [⟨"Store~101", "disarmed"⟩] [row101] pacific2pm
      "Wednesday" = .ok [] [] ∧
    site_validation [⟨"Store~101", "armed"⟩] [row101] pacific10pm
      "Wednesday" = .ok [] [] :=
  ⟨rfl, rfl, rfl⟩

/-- C10: a site whose resolved CinglepointId is valid (not -1) but matches
no schedule row makes the pass raise `IndexError` at `siterow.iat[0,0]`:
the pass result is a crash carrying the accumulators as they stood, so the
site is neither alerted nor added to the skip list and no later site is
evaluated. -/
theorem c10_missing_row_aborts (schedulefile : List ScheduleRow)
    (vt : Instant) (vd : String) (site : SiteLiveState)
    (rest : List SiteLiveState) (alerts skipped : List String)
    (hid : get_cinglepointid site.site_name ≠ -1)
    (hrow : schedulefile.find?
      (fun r => r.cinglepoint_id == get_cinglepointid site.site_name) =
      none) :
    runPass schedulefile vt vd (site :: rest) alerts skipped =
      .crash .indexError alerts skipped := by
  simp only [runPass, evalSite, if_neg hid, hrow]

/-- C10 witness: Store~101 resolves to 101, the empty schedule table has
no matching row, and the pass crashes before the second site. -/
theorem c10_witness :
    runPass [] pacific2pm "Wednesday"
      [⟨"Store~101", "armed"⟩, ⟨"Store~102", "armed"⟩] [] [] =
      .crash .indexError [] [] :=
  c10_missing_row_aborts [] pacific2pm "Wednesday" ⟨"Store~101", "armed"⟩
    [⟨"Store~102", "armed"⟩] [] [] (by decide) rfl

/-- C8: a site whose resolved CinglepointId is the sentinel -1 is skipped
before the schedule-row lookup, for every schedule table alike: its
iteration yields a skip (never an alert), and the pass records exactly its
name in the skip list and continues with the remaining sites. -/
theorem c8_sentinel_never_alerts (schedulefile : List ScheduleRow)
    (vt : Instant) (vd : String) (site : SiteLiveState)
    (rest : List SiteLiveState) (alerts skipped : List String)
    (hid : get_cinglepointid site.site_name = -1) :
    evalSite schedulefile vt vd site = .skip site.site_name ∧
    runPass schedulefile vt vd (site :: rest) alerts skipped =
      runPass schedulefile vt vd rest alerts (skipped ++ [site.site_name]) := by
  have h : evalSite schedulefile vt vd site = .skip site.site_name := by
    simp [evalSite, hid]
  exact ⟨h, by simp only [runPass, h]⟩

/-- C8 witness: Kiosk A has no tilde segment, resolves to -1, and only
joins the skip record. -/
theorem c8_witness :
    evalSite [] pacific2pm "Wednesday" ⟨"Kiosk A", "armed"⟩ =
      .skip "Kiosk A" ∧
    runPass [] pacific2pm "Wednesday" [⟨"Kiosk A", "armed"⟩] [] [] =
      runPass [] pacific2pm "Wednesday" [] [] ["Kiosk A"] :=
  c8_sentinel_never_alerts [] pacific2pm "Wednesday" ⟨"Kiosk A", "armed"⟩
    [] [] [] (by decide)

/-- Helper: splitting a list free of the separator yields a single
segment. -/
theorem pySplitAux_no_sep (sep : Char) (l : List Char) :
    ∀ cur : List Char, sep ∉ l →
      pySplitAux sep l cur = [String.mk (cur.reverse ++ l)] := by
  induction l with
  | nil => intro cur _; simp [pySplitAux]
  | cons c rest ih =>
    intro cur h
    have hc : ¬c = sep := by
      rintro rfl; exact h (List.mem_cons_self _ _)
    have h2 : sep ∉ rest := fun hm => h (List.mem_cons_of_mem _ hm)
    simp [pySplitAux, hc, ih (c :: cur) h2, List.append_assoc]

/-- C3: identifier resolution. When the site name has a second
tilde-delimited segment whose stripped form is a valid Python integer,
`get_cinglepointid` returns that integer; a name with no tilde, or one
whose second segment is not a valid integer, returns the sentinel -1. The
function is total in the embedding, reflecting that `IndexError` and
`ValueError` are both caught in the source. -/
theorem c3_identifier_resolution :
    (∀ (s seg : String) (n : Int), (pySplit '~' s)[1]? = some seg →
      pyInt (pyStrip seg) = some n → get_cinglepointid s = n) ∧
    (∀ s : String, '~' ∉ s.data → get_cinglepointid s = -1) ∧
    (∀ s seg : String, (pySplit '~' s)[1]? = some seg →
      pyInt (pyStrip seg) = none → get_cinglepointid s = -1) := by
  refine ⟨?_, ?_, ?_⟩
  · intro s seg n h1 h2
    simp [get_cinglepointid, h1, h2]
  · intro s h
    have hsplit : pySplit '~' s = [String.mk s.data] := by
      simpa using pySplitAux_no_sep '~' s.data [] h
    simp [get_cinglepointid, hsplit]
  · intro s seg h1 h2
    simp [get_cinglepointid, h1, h2]

/-- C3 witness: a well-formed tilde segment resolves to its integer, a
name without a tilde and a name with a non-integer second segment both
resolve to -1. -/
theorem c3_witness :
    get_cinglepointid "Store 12 ~ 4021 " = 4021 ∧
    get_cinglepointid "Kiosk A" = -1 ∧
    get_cinglepointid "a~b~c" = -1 :=
  ⟨c3_identifier_resolution.1 "Store 12 ~ 4021 " " 4021 " 4021 rfl rfl,
   c3_identifier_resolution.2.1 "Kiosk A" (by decide),
   c3_identifier_resolution.2.2 "a~b~c" "b" rfl rfl⟩

/-- Helper: the three-way branch yields an alert exactly when the
condition evaluated to true without raising. -/
theorem outcomeOfCondition_alert_iff (name : String)
    (r : Except PyExn Bool) :
    outcomeOfCondition name r = .alert name ↔ r = .ok true := by
  cases r with
  | error e => simp [outcomeOfCondition]
  | ok b => cases b <;> simp [outcomeOfCondition]

/-- C1: for a site that is evaluated (identifier, row, time zone and
columns resolve, and both window cells parse to times), an alert is
emitted exactly when the local time is strictly above the parsed open
time, strictly below the parsed close time, and the state is armed; in
particular equality with either boundary never alerts. -/
theorem c1_alert_iff_strict_window (schedulefile : List ScheduleRow)
    (vt : Instant) (vd : String) (site : SiteLiveState) (row : ScheduleRow)
    (oc cc t1 t2 : Nat)
    (hid : get_cinglepointid site.site_name ≠ -1)
    (hrow : schedulefile.find?
      (fun r => r.cinglepoint_id == get_cinglepointid site.site_name) =
      some row)
    (htz : cell_market_to_timezone (row.cells 0) ≠ "")
    (hcols : get_open_close_columns vd = some (oc, cc))
    (hparse : parse_window row oc cc = .vals (.tm t1) (.tm t2)) :
    (evalSite schedulefile vt vd site = .alert site.site_name ↔
      (t1 < vt (cell_market_to_timezone (row.cells 0)) ∧
       vt (cell_market_to_timezone (row.cells 0)) < t2 ∧
       site.site_state = "armed")) ∧
    ((vt (cell_market_to_timezone (row.cells 0)) = t1 ∨
      vt (cell_market_to_timezone (row.cells 0)) = t2) →
      evalSite schedulefile vt vd site ≠ .alert site.site_name) := by
  have he := evalSite_eq_of_reach schedulefile vt vd site row oc cc _ _
    hid hrow htz hcols hparse
  rw [he]
  constructor
  · rw [outcomeOfCondition_alert_iff, alert_condition_tm]
    simp [Bool.and_eq_true, decide_eq_true_eq, beq_iff_eq, and_assoc]
  · intro hbd hcontra
    rw [outcomeOfCondition_alert_iff, alert_condition_tm] at hcontra
    simp only [Except.ok.injEq, Bool.and_eq_true, decide_eq_true_eq,
      beq_iff_eq] at hcontra
    obtain ⟨ha, hb2, _⟩ := hcontra
    rcases hbd with rfl | rfl
    · exact absurd ha (lt_irrefl _)
    · exact absurd hb2 (lt_irrefl _)

/-- C1 witness: the Store~101 scenario at 2:00 PM Pacific satisfies the
strict window condition and alerts. -/
theorem c1_witness :
    evalSite [row101] pacific2pm "Wednesday" ⟨"Store~101", "armed"⟩ =
      .alert "Store~101" :=
  (c1_alert_iff_strict_window [row101] pacific2pm "Wednesday"
      ⟨"Store~101", "armed"⟩ row101 8 9 32400 75600 (by decide) rfl
      (by decide) rfl rfl).1.mpr (by decide)

/-- C5: when both of the day cells are textual and either text fails to
parse in the H:MM AM/PM format, the site is recorded in the skip list and
the pass continues with the remaining sites, with no alert for that
site. -/
theorem c5_malformed_text_skips (schedulefile : List ScheduleRow)
    (vt : Instant) (vd : String) (site : SiteLiveState) (row : ScheduleRow)
    (oc cc : Nat) (s1 s2 : String) (rest : List SiteLiveState)
    (alerts skipped : List String)
    (hid : get_cinglepointid site.site_name ≠ -1)
    (hrow : schedulefile.find?
      (fun r => r.cinglepoint_id == get_cinglepointid site.site_name) =
      some row)
    (htz : cell_market_to_timezone (row.cells 0) ≠ "")
    (hcols : get_open_close_columns vd = some (oc, cc))
    (hoc : row.cells oc = .text s1) (hcc : row.cells cc = .text s2)
    (hbad : parseTime12 s1 = none ∨ parseTime12 s2 = none) :
    evalSite schedulefile vt vd site = .skip site.site_name ∧
    runPass schedulefile vt vd (site :: rest) alerts skipped =
      runPass schedulefile vt vd rest alerts (skipped ++ [site.site_name]) := by
  have hpw : parse_window row oc cc = .skipped := by
    unfold parse_window
    rw [hoc, hcc]
    rcases hbad with h | h
    · simp [strptimeCell, h]
    · cases hp : parseTime12 s1 <;> simp [strptimeCell, h, hp]
  have h : evalSite schedulefile vt vd site = .skip site.site_name := by
    simp only [evalSite, if_neg hid, hrow, if_neg htz, hcols, hpw]
  exact ⟨h, by simp only [runPass, h]⟩

/-- C5 witness: the malformed open text 25:00 AM makes Store~101 a skip
entry while the pass goes on. -/
theorem c5_witness :
    evalSite [rowBad] pacific2pm "Wednesday" ⟨"Store~101", "armed"⟩ =
      .skip "Store~101" ∧
    runPass [rowBad] pacific2pm "Wednesday" [⟨"Store~101", "armed"⟩] [] [] =
      runPass [rowBad] pacific2pm "Wednesday" [] [] ["Store~101"] :=
  c5_malformed_text_skips [rowBad] pacific2pm "Wednesday"
    ⟨"Store~101", "armed"⟩ rowBad 8 9 "25:00 AM" "9:00 PM" [] [] []
    (by decide) rfl (by decide) rfl rfl rfl (Or.inl rfl)

/-- C2 counterexample: a site whose valid CinglepointId matches no
schedule row raises `IndexError` out of the pass, so not every per-site
failure is recovered: the crash propagates to the caller and the second
site is never evaluated. -/
theorem c2_counterexample :
    site_validation [⟨"Store~101", "armed"⟩, ⟨"Store~102", "armed"⟩] []
      pacific2pm "Wednesday" = .crash .indexError [] [] := rfl

/-- C2 amended: the failure kinds the code does recover inside the pass
are the unresolvable identifier, the unknown market, and the unparseable
textual time window, each turning into a skip entry; and any site whose
iteration does not raise lets the pass continue with the remaining sites.
A missing schedule row or a non-comparable window value raises an
exception that aborts the pass. -/
theorem c2_recovered_failure_kinds :
    (∀ (sched : List ScheduleRow) (vt : Instant) (vd : String)
       (site : SiteLiveState), get_cinglepointid site.site_name = -1 →
       evalSite sched vt vd site = .skip site.site_name) ∧
    (∀ (sched : List ScheduleRow) (vt : Instant) (vd : String)
       (site : SiteLiveState) (row : ScheduleRow),
       get_cinglepointid site.site_name ≠ -1 →
       sched.find?
         (fun r => r.cinglepoint_id == get_cinglepointid site.site_name) =
         some row →
       cell_market_to_timezone (row.cells 0) = "" →
       evalSite sched vt vd site = .skip site.site_name) ∧
    (∀ (sched : List ScheduleRow) (vt : Instant) (vd : String)
       (site : SiteLiveState) (row : ScheduleRow) (oc cc : Nat),
       get_cinglepointid site.site_name ≠ -1 →
       sched.find?
         (fun r => r.cinglepoint_id == get_cinglepointid site.site_name) =
         some row →
       cell_market_to_timezone (row.cells 0) ≠ "" →
       get_open_close_columns vd = some (oc, cc) →
       parse_window row oc cc = .skipped →
       evalSite sched vt vd site = .skip site.site_name) ∧
    (∀ (sched : List ScheduleRow) (vt : Instant) (vd : String)
       (site : SiteLiveState) (rest : List SiteLiveState)
       (alerts skipped : List String),
       (∀ e : PyExn, evalSite sched vt vd site ≠ .crash e) →
       ∃ alerts2 skipped2,
         runPass sched vt vd (site :: rest) alerts skipped =
           runPass sched vt vd rest alerts2 skipped2) := by
  refine ⟨?_, ?_, ?_, ?_⟩
  · intro sched vt vd site h
    simp [evalSite, h]
  · intro sched vt vd site row hid hrow htz
    simp only [evalSite, if_neg hid, hrow, if_pos htz]
  · intro sched vt vd site row oc cc hid hrow htz hcols hpw
    simp only [evalSite, if_neg hid, hrow, if_neg htz, hcols, hpw]
  · intro sched vt vd site rest alerts skipped hnc
    cases h : evalSite sched vt vd site with
    | alert n => exact ⟨alerts ++ [n], skipped, by simp only [runPass, h]⟩
    | noAlert => exact ⟨alerts, skipped, by simp only [runPass, h]⟩
    | skip n => exact ⟨alerts, skipped ++ [n], by simp only [runPass, h]⟩
    | crash e => exact absurd h (hnc e)

/-- C2 witness: each recovered failure kind on a concrete input, and a
non-raising site followed by continuation of the pass. -/
theorem c2_witness :
    evalSite [] pacific2pm "Wednesday" ⟨"Kiosk A", "armed"⟩ =
      .skip "Kiosk A" ∧
    evalSite [rowTX] pacific2pm "Wednesday" ⟨"Store~101", "armed"⟩ =
      .skip "Store~101" ∧
    evalSite [rowBad] pacific2pm "Wednesday" ⟨"Store~101", "armed"⟩ =
      .skip "Store~101" ∧
    ∃ alerts2 skipped2,
      runPass [row101] pacific2pm "Wednesday" [⟨"Store~101", "armed"⟩]
        [] [] = runPass [row101] pacific2pm "Wednesday" [] alerts2 skipped2 :=
  ⟨c2_recovered_failure_kinds.1 [] pacific2pm "Wednesday"
     ⟨"Kiosk A", "armed"⟩ (by decide),
   c2_recovered_failure_kinds.2.1 [rowTX] pacific2pm "Wednesday"
     ⟨"Store~101", "armed"⟩ rowTX (by decide) rfl rfl,
   c2_recovered_failure_kinds.2.2.1 [rowBad] pacific2pm "Wednesday"
     ⟨"Store~101", "armed"⟩ rowBad 8 9 (by decide) rfl (by decide) rfl rfl,
   c2_recovered_failure_kinds.2.2.2 [row101] pacific2pm "Wednesday"
     ⟨"Store~101", "armed"⟩ [] [] []
     (by intro e; cases e <;> decide)⟩

/-- C4 counterexample: with a blank (NaN) Wednesday open cell the pass
does not evaluate to no-alert for the site; the comparison at line 159
raises an uncaught `TypeError` that crashes the whole pass. -/
theorem c4_counterexample :
    site_validation [⟨"Store~101", "armed"⟩] [rowBlankDay] pacific2pm
      "Wednesday" = .crash .typeError [] [] := rfl

/-- C4 amended: a cell that is neither parseable text nor a native time
value is passed through unchanged by the `TypeError` handler, whether it
is the open or the close cell; but the window comparison does not turn
such a site into no-alert by policy: whenever the comparison reaches the
non-comparable value it raises an uncaught `TypeError` that aborts the
pass — always when the open value is non-comparable, and when the close
value is non-comparable exactly when the local time is strictly past the
comparable open time; at or before the open time the line-159 conjunction
short-circuits and the site evaluates to plain no-alert without the close
value ever being examined. -/
theorem c4_passthrough_comparison_raises :
    (∀ (row : ScheduleRow) (oc cc : Nat),
       strptimeCell (row.cells oc) = .error .typeError →
       parse_window row oc cc =
         .vals (.raw (row.cells oc)) (.raw (row.cells cc))) ∧
    (∀ (row : ScheduleRow) (oc cc t : Nat),
       strptimeCell (row.cells oc) = .ok t →
       strptimeCell (row.cells cc) = .error .typeError →
       parse_window row oc cc = .vals (.tm t) (.raw (row.cells cc))) ∧
    (∀ (lt : Nat) (ct : TOrRaw) (st : String) (c : Cell),
       tmOf (.raw c) = none →
       alert_condition lt (.raw c) ct st = .error .typeError) ∧
    (∀ (sched : List ScheduleRow) (vt : Instant) (vd : String)
       (site : SiteLiveState) (row : ScheduleRow) (oc cc : Nat),
       get_cinglepointid site.site_name ≠ -1 →
       sched.find?
         (fun r => r.cinglepoint_id == get_cinglepointid site.site_name) =
         some row →
       cell_market_to_timezone (row.cells 0) ≠ "" →
       get_open_close_columns vd = some (oc, cc) →
       row.cells oc = .blank →
       evalSite sched vt vd site = .crash .typeError) ∧
    (∀ (sched : List ScheduleRow) (vt : Instant) (vd : String)
       (site : SiteLiveState) (row : ScheduleRow) (oc cc t : Nat),
       get_cinglepointid site.site_name ≠ -1 →
       sched.find?
         (fun r => r.cinglepoint_id == get_cinglepointid site.site_name) =
         some row →
       cell_market_to_timezone (row.cells 0) ≠ "" →
       get_open_close_columns vd = some (oc, cc) →
       strptimeCell (row.cells oc) = .ok t →
       row.cells cc = .blank →
       (t < vt (cell_market_to_timezone (row.cells 0)) →
         evalSite sched vt vd site = .crash .typeError) ∧
       (¬t < vt (cell_market_to_timezone (row.cells 0)) →
         evalSite sched vt vd site = .noAlert)) := by
  refine ⟨?_, ?_, ?_, ?_, ?_⟩
  · intro row oc cc h
    simp [parse_window, h]
  · intro row oc cc t h1 h2
    simp [parse_window, h1, h2]
  · intro lt ct st c h
    simp [alert_condition, cmpGT, h]
  · intro sched vt vd site row oc cc hid hrow htz hcols hoc
    have hpw : parse_window row oc cc =
        .vals (.raw Cell.blank) (.raw (row.cells cc)) := by
      simp [parse_window, strptimeCell, hoc]
    simp only [evalSite, if_neg hid, hrow, if_neg htz, hcols, hpw,
      alert_condition, cmpGT, tmOf]
  · intro sched vt vd site row oc cc t hid hrow htz hcols hoc hcc
    have hpw : parse_window row oc cc =
        .vals (.tm t) (.raw Cell.blank) := by
      unfold parse_window
      rw [hoc, hcc]
      simp [strptimeCell]
    constructor
    · intro hlt
      have hd : decide (t < vt (cell_market_to_timezone (row.cells 0))) =
          true := decide_eq_true hlt
      simp only [evalSite, if_neg hid, hrow, if_neg htz, hcols, hpw,
        alert_condition, cmpGT, cmpLT, tmOf, hd]
    · intro hnlt
      have hd : decide (t < vt (cell_market_to_timezone (row.cells 0))) =
          false := decide_eq_false hnlt
      simp only [evalSite, if_neg hid, hrow, if_neg htz, hcols, hpw,
        alert_condition, cmpGT, tmOf, hd]

/-- C4 witness: the blank Wednesday cells of `rowBlankDay` are passed
through unchanged and crash the site evaluation; the mixed row with a
parseable 9:00 AM open cell and a blank close cell keeps the blank close
value unchanged, crashes at 2:00 PM Pacific (past the open time), and
evaluates to plain no-alert at 8:00 AM Pacific (before the open time). -/
theorem c4_witness :
    parse_window rowBlankDay 8 9 =
      .vals (.raw Cell.blank) (.raw Cell.blank) ∧
    parse_window rowMixed 8 9 = .vals (.tm 32400) (.raw Cell.blank) ∧
    alert_condition 50400 (.raw Cell.blank) (.raw Cell.blank) "armed" =
      .error .typeError ∧
    evalSite [rowBlankDay] pacific2pm "Wednesday" ⟨"Store~101", "armed"⟩ =
      .crash .typeError ∧
    evalSite [rowMixed] pacific2pm "Wednesday" ⟨"Store~101", "armed"⟩ =
      .crash .typeError ∧
    evalSite [rowMixed] pacific8am "Wednesday" ⟨"Store~101", "armed"⟩ =
      .noAlert :=
  ⟨c4_passthrough_comparison_raises.1 rowBlankDay 8 9 rfl,
   c4_passthrough_comparison_raises.2.1 rowMixed 8 9 32400 rfl rfl,
   c4_passthrough_comparison_raises.2.2.1 50400 (.raw Cell.blank) "armed"
     Cell.blank rfl,
   c4_passthrough_comparison_raises.2.2.2.1 [rowBlankDay] pacific2pm
     "Wednesday" ⟨"Store~101", "armed"⟩ rowBlankDay 8 9 (by decide) rfl
     (by decide) rfl rfl,
   (c4_passthrough_comparison_raises.2.2.2.2 [rowMixed] pacific2pm
     "Wednesday" ⟨"Store~101", "armed"⟩ rowMixed 8 9 32400 (by decide) rfl
     (by decide) rfl rfl rfl).1 (by decide),
   (c4_passthrough_comparison_raises.2.2.2.2 [rowMixed] pacific8am
     "Wednesday" ⟨"Store~101", "armed"⟩ rowMixed 8 9 32400 (by decide) rfl
     (by decide) rfl rfl rfl).2 (by decide)⟩

end VerkadaAlerts
